import Mathlib

/-
Verification of the Anemos VS Code extension core (src/extension.js):
the binary Resolver (ensureAnemosBinary, getGithubReleaseUrl, downloadFile,
writeResponseToFile) and the types Synchronizer (ensureTypesAreUpToDate,
getAnemosToolVersion, generateAnemosTypes).

The JavaScript is embedded shallowly:
  - external outcomes (process spawns, HTTP responses, stream events,
    filesystem primitives succeeding or throwing) are inputs of the model;
  - the file at the download destination path is an `Option (List Nat)`
    (absent, or present with its byte contents);
  - observable side effects are recorded in an explicit trace list, so that
    statements such as "no network call occurs" are statements about the
    trace;
  - a JavaScript function that can throw returns an `Except` value.
-/

namespace Anemos

instance {ε α : Type} [DecidableEq ε] [DecidableEq α] :
    DecidableEq (Except ε α) := fun x y =>
  match x, y with
  | .ok a, .ok b => decidable_of_iff (a = b) (by simp)
  | .ok _, .error _ => .isFalse (by simp)
  | .error _, .ok _ => .isFalse (by simp)
  | .error e, .error f => decidable_of_iff (e = f) (by simp)

/-! ## String helpers

`charsStart pat l` decides whether `pat` is an initial segment of `l`;
`strContain pat s` decides whether `pat` occurs as a contiguous substring
of `s`. `strTrim` models the JavaScript `String.prototype.trim` used on
the output of `anemos --version`: it removes leading and trailing
whitespace. -/

def charsStart : List Char → List Char → Bool
  | [], _ => true
  | _ :: _, [] => false
  | a :: as, b :: bs => a = b && charsStart as bs

def charsContain (pat : List Char) : List Char → Bool
  | [] => pat.isEmpty
  | c :: cs => charsStart pat (c :: cs) || charsContain pat cs

def strContain (pat s : String) : Bool :=
  charsContain pat.toList s.toList

def dropLeadingWs : List Char → List Char
  | [] => []
  | c :: cs => if c.isWhitespace then dropLeadingWs cs else c :: cs

def strTrim (s : String) : String :=
  String.mk (dropLeadingWs ((dropLeadingWs s.toList.reverse).reverse))

/-! ## Release URL (getGithubReleaseUrl)

`os.platform()` and `os.arch()` are environment inputs, passed as strings.
The two switch statements of the source become nested conditionals. -/

def platformIdOf (platform : String) : String :=
  if platform = "win32" then "windows"
  else if platform = "darwin" then "darwin"
  else "linux"

def archIdOf (arch : String) : String :=
  if arch = "x64" then "amd64"
  else if arch = "arm64" then "arm64"
  else "amd64"

def getGithubReleaseUrl (platform arch : String) : String :=
  let version := "latest"
  "https://github.com/ohayocorp/anemos/releases/" ++ version ++
    "/download/anemos-" ++ platformIdOf platform ++ "-" ++ archIdOf arch

/-! ## Download model (downloadFile, writeResponseToFile)

Each `https.get` issued by `downloadFile` either fires the error event
(`FetchOutcome.reject`) or yields a response. The successive outcomes the
recursion observes form a list, consumed one element per request, so the
unbounded recursion of the source is structural here. When a 200 response
is streamed to disk, `WriteOutcome` says how the streaming ends: cleanly,
with a write-stream error event, or with a response error event; in the
two error cases the bytes already flushed may sit at the destination.
`unlinkFails` says whether `fs.unlink` on the destination throws. -/

structure HttpResponse where
  statusCode : Nat
  location : String
  body : List Nat
deriving DecidableEq

inductive FetchOutcome where
  | reject
  | response (r : HttpResponse)
deriving DecidableEq

inductive WriteOutcome where
  | ok
  | fileError (flushedBytes : List Nat)
  | respError (flushedBytes : List Nat)
deriving DecidableEq

inductive DlError where
  | network
  | downloadFailed (status : Nat)
  | fileWriteError
  | respStreamError
deriving DecidableEq

/-- The cleanup in the catch of `downloadFile`: delete the destination if
it exists, swallowing deletion failures (a failed unlink leaves the file). -/
def cleanupDest (unlinkFails : Bool) (dest : Option (List Nat)) :
    Option (List Nat) :=
  match dest with
  | none => none
  | some b => if unlinkFails then some b else none

/-- `writeResponseToFile(response, destPath)`: on a clean finish the file
holds the response body; on a write-stream error the handler unlinks the
destination itself (swallowing unlink failures) and rejects; on a response
error it rejects leaving the partial bytes in place. -/
def writeResponseToFile (body : List Nat) (w : WriteOutcome)
    (unlinkFails : Bool) : Except DlError Unit × Option (List Nat) :=
  match w with
  | .ok => (.ok (), some body)
  | .fileError p => (.error .fileWriteError, cleanupDest unlinkFails (some p))
  | .respError p => (.error .respStreamError, some p)

/-- `downloadFile(url, destPath)` over the observed request outcomes: a
301/302 response recurses on the rest of the chain (the source recurses on
the Location header target); any other non-200 status throws; a 200 status
streams to the destination. Every thrown error passes through the catch
block, which deletes the destination if present and rethrows the original
error. An exhausted chain is read as a request that never completed and is
grouped with request rejection. -/
def downloadFile (unlinkFails : Bool) :
    List FetchOutcome → WriteOutcome → Option (List Nat) →
    Except DlError Unit × Option (List Nat)
  | [], _, dest => (.error .network, cleanupDest unlinkFails dest)
  | .reject :: _, _, dest => (.error .network, cleanupDest unlinkFails dest)
  | .response r :: rest, w, dest =>
    if r.statusCode = 302 ∨ r.statusCode = 301 then
      downloadFile unlinkFails rest w dest
    else if r.statusCode ≠ 200 then
      (.error (.downloadFailed r.statusCode), cleanupDest unlinkFails dest)
    else
      match writeResponseToFile r.body w unlinkFails with
      | (.ok u, d) => (.ok u, d)
      | (.error e, d) => (.error e, cleanupDest unlinkFails d)

/-- The URLs `downloadFile` actually requests, starting from `url`: each
301/302 response makes the recursion re-issue the fetch against the
Location header of that response. -/
def requestedUrls (url : String) : List FetchOutcome → List String
  | [] => [url]
  | .reject :: _ => [url]
  | .response r :: rest =>
    if r.statusCode = 302 ∨ r.statusCode = 301 then
      url :: requestedUrls r.location rest
    else [url]

/-- The terminal (non-redirect) response of a chain, when one is reached. -/
def terminalOf : List FetchOutcome → Option HttpResponse
  | [] => none
  | .reject :: _ => none
  | .response r :: rest =>
    if r.statusCode = 302 ∨ r.statusCode = 301 then terminalOf rest
    else some r

/-! ## Resolver (ensureAnemosBinary)

The environment collects the outcome of every external interaction the
function performs: whether the search-path probe (`execAsync` of the
binary with `--help`) succeeds, the cache file contents (existsSync is
`isSome`), the answer of the consent dialog (`none` when dismissed),
whether the storage directory already exists, the download outcomes, and
whether `fs.chmodSync` succeeds. Observable side effects are traced. -/

def binaryNameOf (platform : String) : String :=
  if platform = "win32" then "anemos.exe" else "anemos"

/-- `path.join`, with the platform separator abstracted as a slash. -/
def pathJoin (a b : String) : String := a ++ "/" ++ b

inductive RsEffect where
  | probeExec
  | cacheCheck
  | consentPrompt
  | storageCheck
  | mkdirStorage
  | netRequest
  | chmodBinary
deriving DecidableEq

/-- Effects that touch the filesystem or the network; the search-path
probe is a process spawn and the consent dialog a UI interaction, neither
of which reads or writes the filesystem or opens a connection. -/
def isFsOrNet : RsEffect → Bool
  | .probeExec => false
  | .consentPrompt => false
  | _ => true

inductive BinaryUnavailable where
  | acquisitionDeclined
  | downloadError (e : DlError)
  | chmodError
deriving DecidableEq

structure ResolverEnv where
  platform : String
  arch : String
  storagePath : String
  probeOk : Bool
  cacheFile : Option (List Nat)
  storageExists : Bool
  consent : Option String
  chain : List FetchOutcome
  writeOut : WriteOutcome
  unlinkFails : Bool
  chmodOk : Bool
deriving DecidableEq

/-- `ensureAnemosBinary(context)`: search-path probe, then cache probe,
then acquisition (consent dialog, lazy storage-directory creation,
download into the cache path, chmod on non-Windows). Returns the resolved
location or the error thrown, the final cache-file state, and the trace
of effects in order. -/
def ensureAnemosBinary (env : ResolverEnv) :
    Except BinaryUnavailable String × Option (List Nat) × List RsEffect :=
  let binaryName := binaryNameOf env.platform
  if env.probeOk then
    (.ok binaryName, env.cacheFile, [.probeExec])
  else
    let binaryPath := pathJoin env.storagePath binaryName
    if env.cacheFile.isSome then
      (.ok binaryPath, env.cacheFile, [.probeExec, .cacheCheck])
    else if env.consent ≠ some "Yes" then
      (.error .acquisitionDeclined, env.cacheFile,
        [.probeExec, .cacheCheck, .consentPrompt])
    else
      let pre := [.probeExec, .cacheCheck, .consentPrompt, .storageCheck] ++
        (if env.storageExists then [] else [.mkdirStorage])
      match downloadFile env.unlinkFails env.chain env.writeOut env.cacheFile with
      | (.error e, d) => (.error (.downloadError e), d, pre ++ [.netRequest])
      | (.ok _, d) =>
        if env.platform ≠ "win32" then
          if env.chmodOk then
            (.ok binaryPath, d, pre ++ [.netRequest, .chmodBinary])
          else
            (.error .chmodError, d, pre ++ [.netRequest, .chmodBinary])
        else
          (.ok binaryPath, d, pre ++ [.netRequest])

/-! ## Synchronizer (ensureTypesAreUpToDate)

`getAnemosToolVersion` wraps binary resolution plus the `--version`
invocation; its environment outcome is either the raw standard output or
failure of any step (in which case the catch logs and returns the string
"unknown"). The version file on disk is absent, unreadable (the read or
the JSON parse throws), or a parsed record with a version field.
`genOk` says whether `generateAnemosTypes` (resolution plus the
`declarations` invocation) succeeds, `writeOk` whether
`fs.writeFileSync` of the new record succeeds. -/

inductive VersionQueryOutcome where
  | ok (output : String)
  | fail
deriving DecidableEq

inductive VersionFile where
  | absent
  | corrupt
  | record (version : String)
deriving DecidableEq

inductive SyncError where
  | toolInvocationFailed
  | recordWriteFailed
deriving DecidableEq

inductive SyncEffect where
  | versionExec
  | logVersionFailure
  | logReadFailure
  | declExec
  | logGenerateFailure
  | writeRecord (version : String)
  | restartTsServer
  | logSyncFailure
deriving DecidableEq

/-- `getAnemosToolVersion(context)`: trimmed standard output of
`anemos --version`, or the literal string "unknown" (logged) when
resolution or the invocation throws. -/
def getAnemosToolVersion : VersionQueryOutcome → String × List SyncEffect
  | .ok out => (strTrim out, [.versionExec])
  | .fail => ("unknown", [.versionExec, .logVersionFailure])

/-- `generateAnemosTypes(context, outputDir)`: runs
`anemos declarations outputDir`; on failure it logs and rethrows. -/
def generateAnemosTypes (genOk : Bool) :
    Except SyncError Unit × List SyncEffect :=
  if genOk then (.ok (), [.declExec])
  else (.error .toolInvocationFailed, [.declExec, .logGenerateFailure])

/-- The staleness decision of `ensureTypesAreUpToDate`: `needsUpdate`
starts true; a parseable record compares its version field against the
current version with the "0.0.0" sentinel; a read or parse failure is
logged and leaves `needsUpdate` true. -/
def needsUpdate (vf : VersionFile) (currentVersion : String) : Bool :=
  match vf with
  | .absent => true
  | .corrupt => true
  | .record v => v ≠ currentVersion || currentVersion = "0.0.0"

structure SyncEnv where
  versionQuery : VersionQueryOutcome
  versionFile : VersionFile
  genOk : Bool
  writeOk : Bool
deriving DecidableEq

/-- The body of the outer try of `ensureTypesAreUpToDate`: query the
version, decide staleness, and when stale regenerate, write the new
version record `\x7bversion: currentVersion, generated: now\x7d` and
restart the TS server. Errors of regeneration or of the record write
propagate out of the body. Returns the outcome, the final version-file
state, and the effect trace. -/
def ensureTypesBody (env : SyncEnv) :
    Except SyncError Unit × VersionFile × List SyncEffect :=
  let q := getAnemosToolVersion env.versionQuery
  let currentVersion := q.1
  let readTrace : List SyncEffect :=
    match env.versionFile with
    | .corrupt => [.logReadFailure]
    | _ => []
  if needsUpdate env.versionFile currentVersion then
    match generateAnemosTypes env.genOk with
    | (.error e, tr) => (.error e, env.versionFile, q.2 ++ readTrace ++ tr)
    | (.ok _, tr) =>
      if env.writeOk then
        (.ok (), .record currentVersion,
          q.2 ++ readTrace ++ tr ++ [.writeRecord currentVersion, .restartTsServer])
      else
        (.error .recordWriteFailed, env.versionFile,
          q.2 ++ readTrace ++ tr ++ [.writeRecord currentVersion])
  else
    (.ok (), env.versionFile, q.2 ++ readTrace)

/-- `ensureTypesAreUpToDate(context)`: the body wrapped in the outer
try/catch, which logs every error and returns normally. -/
def ensureTypesAreUpToDate (env : SyncEnv) :
    Except SyncError Unit × VersionFile × List SyncEffect :=
  match ensureTypesBody env with
  | (.error _, vf, tr) => (.ok (), vf, tr ++ [.logSyncFailure])
  | (.ok u, vf, tr) => (.ok u, vf, tr)

/-! ## Helper lemmas -/

theorem strTrim_eval_000 : strTrim "0.0.0" = "0.0.0" := by decide

theorem needsUpdate_000 (vf : VersionFile) :
    needsUpdate vf "0.0.0" = true := by
  cases vf <;> simp [needsUpdate]

theorem writeRecord_notin_query (vq : VersionQueryOutcome) (v : String) :
    SyncEffect.writeRecord v ∉ (getAnemosToolVersion vq).2 := by
  cases vq <;> simp [getAnemosToolVersion]

theorem declExec_notin_query (vq : VersionQueryOutcome) :
    SyncEffect.declExec ∉ (getAnemosToolVersion vq).2 := by
  cases vq <;> simp [getAnemosToolVersion]

/-! ## Claims about the Synchronizer -/

/-- Claim C2: the staleness decision of the Synchronizer equals
(record.version != currentVersion OR currentVersion == "0.0.0") for every
stored record and queried version; an absent record file forces the
decision true; with stored version "1.2.0" and queried version "1.2.0" no
regeneration occurs, and with queried version "0.0.0" regeneration occurs
under every stored record state. -/
theorem claim_c2 :
    (∀ v cv, needsUpdate (.record v) cv = true ↔ (v ≠ cv ∨ cv = "0.0.0")) ∧
    (∀ cv, needsUpdate .absent cv = true) ∧
    (∀ g w, SyncEffect.declExec ∉
      (ensureTypesAreUpToDate ⟨.ok "1.2.0", .record "1.2.0", g, w⟩).2.2) ∧
    (∀ vf g w, SyncEffect.declExec ∈
      (ensureTypesAreUpToDate ⟨.ok "0.0.0", vf, g, w⟩).2.2) := by
  refine ⟨?_, ?_, ?_, ?_⟩
  · intro v cv
    simp [needsUpdate]
  · intro cv
    simp [needsUpdate]
  · intro g w
    cases g <;> cases w <;> decide
  · intro vf g w
    cases vf <;> cases g <;> cases w <;>
      simp [ensureTypesAreUpToDate, ensureTypesBody, getAnemosToolVersion,
        generateAnemosTypes, needsUpdate, strTrim_eval_000]

/-- Witness for claim C2 at concrete inputs. -/
theorem claim_c2_witness :
    needsUpdate (.record "1.2.0") "1.3.0" = true ∧
    SyncEffect.declExec ∈
      (ensureTypesAreUpToDate ⟨.ok "0.0.0", .record "9.9.9", true, true⟩).2.2 :=
  ⟨(claim_c2.1 "1.2.0" "1.3.0").mpr (Or.inl (by decide)),
   claim_c2.2.2.2 (.record "9.9.9") true true⟩

/-- Claim C8: ensureTypesAreUpToDate never propagates an error to its
caller; for every environment outcome the outer catch returns normally. -/
theorem claim_c8 (env : SyncEnv) :
    (ensureTypesAreUpToDate env).1 = .ok () := by
  unfold ensureTypesAreUpToDate
  rcases h : ensureTypesBody env with ⟨res, vf, tr⟩
  cases res <;> simp

/-- Claim C1 counterexample: with a stored record "1.2.0", a failing
version invocation and a succeeding regeneration, the pass does regenerate
and does write a VersionRecord whose version field is "unknown". -/
theorem claim_c1_counterexample :
    (ensureTypesAreUpToDate ⟨.fail, .record "1.2.0", true, true⟩).2.1 =
      VersionFile.record "unknown" ∧
    SyncEffect.declExec ∈
      (ensureTypesAreUpToDate ⟨.fail, .record "1.2.0", true, true⟩).2.2 ∧
    SyncEffect.writeRecord "unknown" ∈
      (ensureTypesAreUpToDate ⟨.fail, .record "1.2.0", true, true⟩).2.2 := by
  decide

/-- Claim C1 as amended: when the tool version invocation fails the
condition is logged and the current version becomes the string "unknown";
regeneration is skipped only when the stored record version is itself
"unknown"; otherwise the pass regenerates, and when regeneration and the
record write succeed it writes a VersionRecord whose version field is
"unknown". -/
theorem claim_c1_amended (env : SyncEnv) (h : env.versionQuery = .fail) :
    SyncEffect.logVersionFailure ∈ (ensureTypesAreUpToDate env).2.2 ∧
    (env.versionFile = .record "unknown" →
      SyncEffect.declExec ∉ (ensureTypesAreUpToDate env).2.2 ∧
      (ensureTypesAreUpToDate env).2.1 = env.versionFile) ∧
    (env.versionFile ≠ .record "unknown" →
      SyncEffect.declExec ∈ (ensureTypesAreUpToDate env).2.2 ∧
      (env.genOk = true → env.writeOk = true →
        (ensureTypesAreUpToDate env).2.1 = .record "unknown")) := by
  obtain ⟨vq, vf, g, w⟩ := env
  subst h
  cases vf with
  | record v =>
    by_cases hv : v = "unknown" <;>
      cases g <;> cases w <;>
        simp [ensureTypesAreUpToDate, ensureTypesBody, getAnemosToolVersion,
          generateAnemosTypes, needsUpdate, hv]
  | absent =>
    cases g <;> cases w <;>
      simp [ensureTypesAreUpToDate, ensureTypesBody, getAnemosToolVersion,
        generateAnemosTypes, needsUpdate]
  | corrupt =>
    cases g <;> cases w <;>
      simp [ensureTypesAreUpToDate, ensureTypesBody, getAnemosToolVersion,
        generateAnemosTypes, needsUpdate]

/-- Witness for the amended claim C1 at a concrete environment. -/
theorem claim_c1_amended_witness :
    SyncEffect.logVersionFailure ∈
      (ensureTypesAreUpToDate ⟨.fail, .absent, true, true⟩).2.2 ∧
    (VersionFile.absent = .record "unknown" →
      SyncEffect.declExec ∉
        (ensureTypesAreUpToDate ⟨.fail, .absent, true, true⟩).2.2 ∧
      (ensureTypesAreUpToDate ⟨.fail, .absent, true, true⟩).2.1 = .absent) ∧
    (VersionFile.absent ≠ .record "unknown" →
      SyncEffect.declExec ∈
        (ensureTypesAreUpToDate ⟨.fail, .absent, true, true⟩).2.2 ∧
      (true = true → true = true →
        (ensureTypesAreUpToDate ⟨.fail, .absent, true, true⟩).2.1 =
          .record "unknown")) :=
  claim_c1_amended ⟨.fail, .absent, true, true⟩ rfl

/-- Claim C9: a VersionRecord write happens only after regeneration
succeeded and always carries the currentVersion used in the staleness
comparison; when regeneration fails the body propagates the error and the
version file on disk is unchanged. -/
theorem claim_c9 (env : SyncEnv) :
    (∀ v, SyncEffect.writeRecord v ∈ (ensureTypesBody env).2.2 →
      env.genOk = true ∧ v = (getAnemosToolVersion env.versionQuery).1) ∧
    (env.genOk = false →
      needsUpdate env.versionFile (getAnemosToolVersion env.versionQuery).1 =
        true →
      (ensureTypesBody env).1 = .error .toolInvocationFailed ∧
      (ensureTypesBody env).2.1 = env.versionFile) := by
  obtain ⟨vq, vf, g, w⟩ := env
  cases g <;> cases w <;> cases vf <;>
    simp only [ensureTypesBody, generateAnemosTypes, if_true, if_false] <;>
    split <;>
    simp_all [writeRecord_notin_query]

/-- Witness for claim C9 at a concrete environment. -/
theorem claim_c9_witness :
    (ensureTypesBody ⟨.ok "1.0.0", .absent, false, true⟩).1 =
      .error .toolInvocationFailed ∧
    (ensureTypesBody ⟨.ok "1.0.0", .absent, false, true⟩).2.1 = .absent :=
  (claim_c9 ⟨.ok "1.0.0", .absent, false, true⟩).2 rfl rfl

/-! ## Claims about the download routine -/

/-- Claim C4: whenever a download run ends in an error, a successful
cleanup leaves no file at the destination, and the propagated outcome is
the original error, independent of whether the swallowed deletion
succeeds. -/
theorem claim_c4 (chain : List FetchOutcome) (w : WriteOutcome)
    (dest : Option (List Nat)) :
    (∀ e, (downloadFile false chain w dest).1 = .error e →
      (downloadFile false chain w dest).2 = none) ∧
    (∀ uf, (downloadFile uf chain w dest).1 =
      (downloadFile false chain w dest).1) := by
  induction chain with
  | nil => cases dest <;> simp [downloadFile, cleanupDest]
  | cons hd tl ih =>
    cases hd with
    | reject => cases dest <;> simp [downloadFile, cleanupDest]
    | response r =>
      by_cases hr : r.statusCode = 302 ∨ r.statusCode = 301
      · simpa [downloadFile, hr] using ih
      · by_cases h200 : r.statusCode = 200
        · cases w <;> cases dest <;>
            simp [downloadFile, writeResponseToFile, cleanupDest, hr, h200]
        · cases dest <;> simp [downloadFile, cleanupDest, hr, h200]

/-- Witness for claim C4 at a concrete failing download. -/
theorem claim_c4_witness :
    (downloadFile false [.response ⟨404, "", []⟩] .ok (some [9])).2 = none ∧
    (downloadFile true [.response ⟨404, "", []⟩] .ok (some [9])).1 =
      (downloadFile false [.response ⟨404, "", []⟩] .ok (some [9])).1 :=
  ⟨(claim_c4 [.response ⟨404, "", []⟩] .ok (some [9])).1
      (.downloadFailed 404) rfl,
   (claim_c4 [.response ⟨404, "", []⟩] .ok (some [9])).2 true⟩

/-- Claim C5: every 301/302 response makes downloadFile re-issue the fetch
against that response Location header, with no bound on the chain length;
a finite chain of 301/302 responses followed by a terminal 200 succeeds
and leaves exactly the terminal response body at the destination. -/
theorem claim_c5 (url : String) (redirects : List HttpResponse)
    (final : HttpResponse) (uf : Bool) (dest : Option (List Nat))
    (hred : ∀ r ∈ redirects, r.statusCode = 301 ∨ r.statusCode = 302)
    (hfin : final.statusCode = 200) :
    downloadFile uf (redirects.map FetchOutcome.response ++ [.response final])
        .ok dest = (.ok (), some final.body) ∧
    requestedUrls url
        (redirects.map FetchOutcome.response ++ [.response final]) =
      url :: redirects.map HttpResponse.location := by
  induction redirects generalizing url with
  | nil =>
    simp [downloadFile, requestedUrls, writeResponseToFile, hfin]
  | cons r rs ih =>
    have hr : r.statusCode = 301 ∨ r.statusCode = 302 :=
      hred r (List.mem_cons_self r rs)
    have htl : ∀ x ∈ rs, x.statusCode = 301 ∨ x.statusCode = 302 :=
      fun x hx => hred x (List.mem_cons_of_mem r hx)
    have ihr := ih r.location htl
    constructor
    · simpa [downloadFile, hr.symm, Or.comm] using ihr.1
    · simpa [requestedUrls, hr.symm, Or.comm] using ihr.2

/-- Witness for claim C5 on a one-redirect chain. -/
theorem claim_c5_witness :
    downloadFile false
        ([⟨301, "u2", []⟩].map FetchOutcome.response ++
          [.response ⟨200, "", [7, 8]⟩]) .ok none =
      (.ok (), some [7, 8]) ∧
    requestedUrls "u"
        ([⟨301, "u2", []⟩].map FetchOutcome.response ++
          [.response ⟨200, "", [7, 8]⟩]) =
      "u" :: [HttpResponse.mk 301 "u2" []].map HttpResponse.location :=
  claim_c5 "u" [⟨301, "u2", []⟩] ⟨200, "", [7, 8]⟩ false none
    (by intro r hr; simp at hr; simp [hr]) rfl

/-- Claim C10: a chain whose terminal response status is anything other
than 200 — including other 2xx codes and the redirect codes 307/308 —
makes downloadFile throw DownloadFailed with that status and, with the
cleanup deletion succeeding, leaves no file at the destination; and a run
that returns successfully reached a terminal 200 response and left its
body at the destination. -/
theorem claim_c10 (chain : List FetchOutcome) (w : WriteOutcome)
    (dest : Option (List Nat)) :
    (∀ r, terminalOf chain = some r → r.statusCode ≠ 200 →
      downloadFile false chain w dest =
        (.error (.downloadFailed r.statusCode), none)) ∧
    (∀ uf, (downloadFile uf chain w dest).1 = .ok () →
      ∃ r, terminalOf chain = some r ∧ r.statusCode = 200 ∧
        (downloadFile uf chain w dest).2 = some r.body) := by
  induction chain with
  | nil => simp [downloadFile, terminalOf]
  | cons hd tl ih =>
    cases hd with
    | reject => simp [downloadFile, terminalOf]
    | response r =>
      by_cases hr : r.statusCode = 302 ∨ r.statusCode = 301
      · simpa [downloadFile, terminalOf, hr] using ih
      · by_cases h200 : r.statusCode = 200
        · cases w <;> cases dest <;>
            simp [downloadFile, terminalOf, writeResponseToFile, cleanupDest,
              hr, h200]
        · cases dest <;>
            simp [downloadFile, terminalOf, cleanupDest, hr, h200]

/-- Witness for claim C10 at the statuses 204 and 307 and at a successful
200 run. -/
theorem claim_c10_witness :
    downloadFile false [.response ⟨204, "", [1]⟩] .ok none =
      (.error (.downloadFailed 204), none) ∧
    downloadFile false
        [.response ⟨307, "u2", [1]⟩, .response ⟨200, "", [2]⟩] .ok none =
      (.error (.downloadFailed 307), none) ∧
    ∃ r, terminalOf [FetchOutcome.response ⟨200, "", [5]⟩] = some r ∧
      r.statusCode = 200 ∧
      (downloadFile false [.response ⟨200, "", [5]⟩] .ok none).2 =
        some r.body :=
  ⟨(claim_c10 [.response ⟨204, "", [1]⟩] .ok none).1 ⟨204, "", [1]⟩ rfl
      (by decide),
   (claim_c10 [.response ⟨307, "u2", [1]⟩, .response ⟨200, "", [2]⟩] .ok
      none).1 ⟨307, "u2", [1]⟩ rfl (by decide),
   (claim_c10 [.response ⟨200, "", [5]⟩] .ok none).2 false rfl⟩

/-! ## Claims about the Resolver -/

/-- Claim C3: resolution tries the search-path probe, the cache probe and
acquisition in that order and the first success ends it: a successful
probe returns the bare binary name with no filesystem or network effect,
and an existing cache file makes resolution return the cache path with no
consent prompt, no network request and no directory creation. -/
theorem claim_c3 (env : ResolverEnv) :
    (env.probeOk = true →
      ensureAnemosBinary env =
        (.ok (binaryNameOf env.platform), env.cacheFile, [.probeExec]) ∧
      ∀ e ∈ (ensureAnemosBinary env).2.2, isFsOrNet e = false) ∧
    (env.probeOk = false → env.cacheFile.isSome = true →
      (ensureAnemosBinary env).1 =
        .ok (pathJoin env.storagePath (binaryNameOf env.platform)) ∧
      (ensureAnemosBinary env).2.1 = env.cacheFile ∧
      RsEffect.consentPrompt ∉ (ensureAnemosBinary env).2.2 ∧
      RsEffect.netRequest ∉ (ensureAnemosBinary env).2.2 ∧
      RsEffect.mkdirStorage ∉ (ensureAnemosBinary env).2.2) := by
  obtain ⟨p, a, sp, probe, cache, se, consent, chain, wo, uf, ch⟩ := env
  cases probe <;> simp [ensureAnemosBinary, isFsOrNet]
  intro hc
  simp [hc]

/-- Witness for claim C3: one environment where the probe succeeds, one
where only the cache probe succeeds. -/
theorem claim_c3_witness :
    (ensureAnemosBinary
        ⟨"linux", "x64", "/store", true, none, true, none, [], .ok, false,
          true⟩ =
      (.ok "anemos", none, [.probeExec]) ∧
      ∀ e ∈ (ensureAnemosBinary
        ⟨"linux", "x64", "/store", true, none, true, none, [], .ok, false,
          true⟩).2.2, isFsOrNet e = false) ∧
    ((ensureAnemosBinary
        ⟨"linux", "x64", "/store", false, some [1], true, none, [], .ok,
          false, true⟩).1 = .ok "/store/anemos" ∧
      (ensureAnemosBinary
        ⟨"linux", "x64", "/store", false, some [1], true, none, [], .ok,
          false, true⟩).2.1 = some [1] ∧
      RsEffect.consentPrompt ∉ (ensureAnemosBinary
        ⟨"linux", "x64", "/store", false, some [1], true, none, [], .ok,
          false, true⟩).2.2 ∧
      RsEffect.netRequest ∉ (ensureAnemosBinary
        ⟨"linux", "x64", "/store", false, some [1], true, none, [], .ok,
          false, true⟩).2.2 ∧
      RsEffect.mkdirStorage ∉ (ensureAnemosBinary
        ⟨"linux", "x64", "/store", false, some [1], true, none, [], .ok,
          false, true⟩).2.2) :=
  ⟨(claim_c3 ⟨"linux", "x64", "/store", true, none, true, none, [], .ok,
      false, true⟩).1 rfl,
   (claim_c3 ⟨"linux", "x64", "/store", false, some [1], true, none, [],
      .ok, false, true⟩).2 rfl rfl⟩

/-- Claim C6: with the probe failing, no cache file, and any consent
answer other than "Yes", resolution fails with the declined-acquisition
error, no file appears at the cache path, and neither directory creation
nor any network request happens. -/
theorem claim_c6 (env : ResolverEnv) (h1 : env.probeOk = false)
    (h2 : env.cacheFile = none) (h3 : env.consent ≠ some "Yes") :
    (ensureAnemosBinary env).1 = .error .acquisitionDeclined ∧
    (ensureAnemosBinary env).2.1 = none ∧
    RsEffect.mkdirStorage ∉ (ensureAnemosBinary env).2.2 ∧
    RsEffect.netRequest ∉ (ensureAnemosBinary env).2.2 := by
  obtain ⟨p, a, sp, probe, cache, se, consent, chain, wo, uf, ch⟩ := env
  simp only at h1 h2 h3
  subst h1 h2
  simp [ensureAnemosBinary, h3]

/-- Witness for claim C6 with the consent dialog answered "No". -/
theorem claim_c6_witness :
    (ensureAnemosBinary
        ⟨"linux", "x64", "/store", false, none, true, some "No", [], .ok,
          false, true⟩).1 = .error .acquisitionDeclined ∧
    (ensureAnemosBinary
        ⟨"linux", "x64", "/store", false, none, true, some "No", [], .ok,
          false, true⟩).2.1 = none ∧
    RsEffect.mkdirStorage ∉ (ensureAnemosBinary
        ⟨"linux", "x64", "/store", false, none, true, some "No", [], .ok,
          false, true⟩).2.2 ∧
    RsEffect.netRequest ∉ (ensureAnemosBinary
        ⟨"linux", "x64", "/store", false, none, true, some "No", [], .ok,
          false, true⟩).2.2 :=
  claim_c6 ⟨"linux", "x64", "/store", false, none, true, some "No", [],
    .ok, false, true⟩ rfl rfl (by decide)

/-! ## Claim about the release URL -/

theorem platformIdOf_cases (p : String) :
    platformIdOf p = "windows" ∨ platformIdOf p = "darwin" ∨
      platformIdOf p = "linux" := by
  unfold platformIdOf
  by_cases h1 : p = "win32" <;> by_cases h2 : p = "darwin" <;> simp [h1, h2]

theorem archIdOf_cases (a : String) :
    archIdOf a = "amd64" ∨ archIdOf a = "arm64" := by
  unfold archIdOf
  by_cases h1 : a = "x64" <;> by_cases h2 : a = "arm64" <;> simp [h1, h2]

theorem archIdOf_default (a : String) (h1 : a ≠ "x64") (h2 : a ≠ "arm64") :
    archIdOf a = "amd64" := by
  unfold archIdOf
  simp [h1, h2]

/-- Claim C7: for every platform/architecture input the computed release
URL contains exactly one of the platform ids windows, darwin, linux and
exactly one of the architecture ids amd64, arm64; every architecture other
than x64 and arm64 maps to amd64; and the version component of the URL is
the literal token latest. -/
theorem claim_c7 (p a : String) :
    List.count true
        [strContain "windows" (getGithubReleaseUrl p a),
         strContain "darwin" (getGithubReleaseUrl p a),
         strContain "linux" (getGithubReleaseUrl p a)] = 1 ∧
    List.count true
        [strContain "amd64" (getGithubReleaseUrl p a),
         strContain "arm64" (getGithubReleaseUrl p a)] = 1 ∧
    strContain "/releases/latest/download/" (getGithubReleaseUrl p a) =
      true ∧
    (a ≠ "x64" → a ≠ "arm64" →
      strContain "amd64" (getGithubReleaseUrl p a) = true) := by
  have hd := archIdOf_default a
  rcases platformIdOf_cases p with hp | hp | hp <;>
    rcases archIdOf_cases a with ha | ha <;>
      refine ⟨?_, ?_, ?_, fun h1 h2 => ?_⟩ <;>
        simp only [getGithubReleaseUrl, hp, ha] <;>
        first
          | decide
          | (exfalso
             rw [hd h1 h2] at ha
             exact absurd ha (by decide))

/-- Witness for claim C7 at an unrecognized platform and architecture. -/
theorem claim_c7_witness :
    List.count true
        [strContain "windows" (getGithubReleaseUrl "sunos" "ppc64"),
         strContain "darwin" (getGithubReleaseUrl "sunos" "ppc64"),
         strContain "linux" (getGithubReleaseUrl "sunos" "ppc64")] = 1 ∧
    strContain "amd64" (getGithubReleaseUrl "sunos" "ppc64") = true :=
  ⟨(claim_c7 "sunos" "ppc64").1,
   (claim_c7 "sunos" "ppc64").2.2.2 (by decide) (by decide)⟩

end Anemos
